import Mathlib

/-!
Verification of the CSV-import and backup/restore pipelines of the
BJJ-CRM repository (app/services/backup_service.py,
app/services/google_drive_service.py,
.history/app/services/csv_import_service_20251025004101.py).

The Python services are shallowly embedded: each service method becomes a
Lean function over explicit state (an in-memory relational store, a list of
backup-directory files, an event trace for filesystem / database effects).
External oracles that the code merely calls (chardet, codec decoding,
`datetime.fromisoformat`, `float`) are passed in as function parameters.
-/

set_option autoImplicit false

namespace BjjCrm

/-! ## Backup service (app/services/backup_service.py) -/

/-- Metadata record built by `BackupService.create_backup`
(`backup_info` dict, backup_service.py lines 40-51, 57, 61, 67, 71).
Only the fields the claims talk about are carried; `db_file` / `files_file`
are `Option` since the dict initializes them to `None`. -/
structure BackupInfo where
  timestamp : String
  db_file : Option String
  files_file : Option String
  include_files : Bool
  file_sizes_database : Option Nat
  file_sizes_files : Option Nat
  deriving Repr, DecidableEq

/-- A file write performed by `create_backup`: the database snapshot copy
(`shutil.copy2`, line 56), the tar.gz archive (`_create_files_backup`,
line 66) or the JSON metadata sidecar (lines 74-76). Each event carries the
file name created in the backup directory. -/
inductive WriteEvent where
  | writeDbCopy (name : String) (size : Nat)
  | writeTar (name : String) (size : Nat)
  | writeMetadata (name : String)
  deriving Repr, DecidableEq

def WriteEvent.isDbCopy : WriteEvent → Bool
  | .writeDbCopy _ _ => true
  | _ => false

def WriteEvent.isTar : WriteEvent → Bool
  | .writeTar _ _ => true
  | _ => false

def WriteEvent.isMetadata : WriteEvent → Bool
  | .writeMetadata _ => true
  | _ => false

/-- `BackupService.create_backup` (backup_service.py lines 29-78), success
path.  `timestamp` is `datetime.now().strftime("%Y%m%d_%H%M%S")`; `dbSize`
and `tarSize` stand for `os.path.getsize` of the two artifacts.  Returns
the `backup_info` dict together with the ordered list of files written in
the backup directory. -/
def create_backup (include_files : Bool) (timestamp : String)
    (dbSize : Nat) (tarSize : Nat) : BackupInfo × List WriteEvent :=
  let dbName := "bjj_crm_" ++ timestamp ++ ".db"
  let info0 : BackupInfo :=
    { timestamp := timestamp, db_file := some dbName, files_file := none,
      include_files := include_files,
      file_sizes_database := some dbSize, file_sizes_files := none }
  let evs0 : List WriteEvent := [.writeDbCopy dbName dbSize]
  let (info1, evs1) :=
    if include_files then
      let tarName := "bjj_crm_files_" ++ timestamp ++ ".tar.gz"
      ({ info0 with files_file := some tarName, file_sizes_files := some tarSize },
       evs0 ++ [.writeTar tarName tarSize])
    else (info0, evs0)
  let metaName := "backup_metadata_" ++ timestamp ++ ".json"
  (info1, evs1 ++ [.writeMetadata metaName])

/-- A filesystem action taken by `BackupService.restore_backup`
(backup_service.py lines 141-155): the safety copy of the live database
(`shutil.copy2(self.db_path, current_backup)`, line 146), the overwrite of
the live database with the snapshot (line 149), and the extraction of the
files archive (`_restore_files_backup`, line 153). -/
inductive RestoreEvent where
  | safetyCopy (dest : String)
  | overwriteDb (src : String)
  | extractFiles (archive : String)
  deriving Repr, DecidableEq

/-- The tail of `restore_backup` when the database branch is skipped
(backup_info has no db_file or the snapshot is missing): only the optional
files restore runs (backup_service.py lines 152-153). -/
def restoreNoDb (info : BackupInfo) (restore_files : Bool)
    (fsExists : String → Bool) (extractOk : Bool) :
    List RestoreEvent × Except String Bool :=
  match info.files_file with
  | some filesFile =>
    if restore_files && fsExists filesFile then
      if extractOk then ([RestoreEvent.extractFiles filesFile], .ok true)
      else ([], .error "Ошибка восстановления")
    else ([], .ok true)
  | none => ([], .ok true)

/-- `BackupService.restore_backup` (backup_service.py lines 130-158).
`fsExists` models `os.path.exists`; `liveDbReadable` models whether
`shutil.copy2(self.db_path, ...)` succeeds (the live database file is
present and readable); `extractOk` models whether
`tarfile.extractall` succeeds.  Returns the trace of filesystem actions
performed, in program order, and either `.ok true` or the wrapped
exception (`Ошибка восстановления`). -/
def restore_backup (info : BackupInfo) (restore_files : Bool)
    (fsExists : String → Bool) (liveDbReadable : Bool) (extractOk : Bool)
    (nowTs : String) : List RestoreEvent × Except String Bool :=
  match info.db_file with
  | some dbFile =>
    if fsExists dbFile then
      if liveDbReadable then
        let evs := [RestoreEvent.safetyCopy ("bjj_crm.db.backup_" ++ nowTs),
                    RestoreEvent.overwriteDb dbFile]
        match info.files_file with
        | some filesFile =>
          if restore_files && fsExists filesFile then
            if extractOk then (evs ++ [RestoreEvent.extractFiles filesFile], .ok true)
            else (evs, .error "Ошибка восстановления")
          else (evs, .ok true)
        | none => (evs, .ok true)
      else ([], .error "Ошибка восстановления")
    else restoreNoDb info restore_files fsExists extractOk
  | none => restoreNoDb info restore_files fsExists extractOk

/-- A file in the backup directory, as seen by
`BackupService.cleanup_old_backups`: a name and a modification time
(`os.path.getmtime`), in seconds. -/
structure BackupDirFile where
  name : String
  mtime : Int
  deriving Repr, DecidableEq

/-- The deletion loop of `cleanup_old_backups` (backup_service.py lines
229-233): every file whose mtime is strictly below the cutoff is removed
and counted; the rest are kept in order. -/
def cleanupLoop (cutoff : Int) : List BackupDirFile → List BackupDirFile × Nat
  | [] => ([], 0)
  | f :: rest =>
    let (kept, n) := cleanupLoop cutoff rest
    if f.mtime < cutoff then (kept, n + 1) else (f :: kept, n)

/-- `BackupService.cleanup_old_backups` (backup_service.py lines 215-238).
`now` is `datetime.now().timestamp()` in seconds; the cutoff is
`now - keep_days * 24 * 3600` (line 226).  Returns the directory after the
sweep and the number of files deleted. -/
def cleanup_old_backups (keep_days : Nat) (now : Int)
    (dir : List BackupDirFile) : List BackupDirFile × Nat :=
  cleanupLoop (now - (keep_days : Int) * 24 * 3600) dir

/-! ## Relational store (app/models/__init__.py, via SQLAlchemy)

Rows of the `students`, `trainers`, `trainings` and `payments` tables.
`Option String` fields model nullable columns (`None` vs a string value).
`DateTime` values are abstracted as `Int`; `Float` amounts as `Rat`. -/

/-- `Student` model (app/models/__init__.py lines 8-30).  `phone` and
`telegram_id` carry `unique=True` constraints (lines 15-16). -/
structure Student where
  id : Nat
  first_name : String
  last_name : String
  phone : String
  telegram_id : Option String
  email : Option String
  current_belt : String
  notes : Option String
  deriving Repr, DecidableEq

/-- `Trainer` model (app/models/__init__.py lines 32-48), the fields used
by the import pipeline. -/
structure Trainer where
  id : Nat
  first_name : String
  last_name : String
  deriving Repr, DecidableEq

/-- `Training` model (app/models/__init__.py lines 50-64). -/
structure Training where
  id : Nat
  date : Int
  trainer_id : Nat
  notes : Option String
  deriving Repr, DecidableEq

/-- `Payment` model (app/models/__init__.py lines 101-116). -/
structure Payment where
  id : Nat
  student_id : Nat
  amount : Rat
  payment_date : Int
  payment_type : String
  description : Option String
  deriving Repr, DecidableEq

/-- The persistent store visible to one import invocation: the table
contents plus the next autoincrement ids. -/
structure DB where
  students : List Student
  trainers : List Trainer
  trainings : List Training
  payments : List Payment
  nextStudentId : Nat
  nextTrainingId : Nat
  nextPaymentId : Nat
  deriving Repr, DecidableEq

/-- `db.query(Student).filter(Student.phone == phone).first()` -/
def queryStudentByPhone (db : DB) (phone : String) : Option Student :=
  db.students.find? (fun s => s.phone == phone)

/-- `db.query(Student).filter(Student.telegram_id == telegram_id).first()` -/
def queryStudentByTelegram (db : DB) (tg : String) : Option Student :=
  db.students.find? (fun s => s.telegram_id == some tg)

/-- `db.query(Student).filter(Student.first_name == fn, Student.last_name == ln).first()` -/
def queryStudentByName (db : DB) (fn ln : String) : Option Student :=
  db.students.find? (fun s => s.first_name == fn && s.last_name == ln)

/-- `db.query(Trainer).filter(Trainer.first_name == fn, Trainer.last_name == ln).first()` -/
def queryTrainerByName (db : DB) (fn ln : String) : Option Trainer :=
  db.trainers.find? (fun t => t.first_name == fn && t.last_name == ln)

/-- `db.query(Training).filter(Training.date == d, Training.trainer_id == tid).first()` -/
def queryTrainingByDateTrainer (db : DB) (d : Int) (tid : Nat) : Option Training :=
  db.trainings.find? (fun t => t.date == d && t.trainer_id == tid)

/-- In-place mutation of an ORM-attached row: the student with the given id
is replaced, every other row is untouched. -/
def updateStudentById (students : List Student) (sid : Nat) (s' : Student) :
    List Student :=
  students.map (fun t => if t.id = sid then s' else t)

/-! ## CSV rows -/

/-- One row as produced by `csv.DictReader`: an association list from the
header columns to the row's cell values. -/
def CsvRow : Type := List (String × String)

/-- `row.get(key, default)`. -/
def pyGet (row : CsvRow) (key dflt : String) : String :=
  match row.find? (fun p => p.1 == key) with
  | some p => p.2
  | none => dflt

/-- Python `str.strip()`: drop whitespace from both ends (written over the
character list so that it evaluates inside the kernel). -/
def pyStrip (s : String) : String :=
  ⟨((s.data.dropWhile Char.isWhitespace).reverse.dropWhile Char.isWhitespace).reverse⟩

/-- Python `name.split(' ', 1)`: split at the first space only. -/
def pySplitFirstSpace (s : String) : List String :=
  match s.splitOn " " with
  | [] => [s]
  | [x] => [x]
  | x :: rest => [x, String.intercalate " " rest]

/-! ## Google Drive import service
(app/services/google_drive_service.py) -/

/-- Store-level action taken while processing one import row: student
lookups, trainer lookup, training duplicate check, row insert/update. -/
inductive ImportEvent where
  | lookupPhone (phone : String)
  | lookupTelegram (tg : String)
  | lookupTrainer (fn ln : String)
  | lookupStudentName (fn ln : String)
  | dupCheckTraining (date : Int) (trainerId : Nat)
  | insertStudent (id : Nat)
  | updateStudent (id : Nat)
  | insertTraining (id : Nat)
  | insertPayment (id : Nat)
  deriving Repr, DecidableEq

/-- Running state of `GoogleDriveService._import_students`
(google_drive_service.py lines 132-135): the session's view of the store,
`imported_count`, `updated_count` and the error list.  Errors are kept as
(row number, message) pairs, mirroring the `f"Строка {row_num}: ..."`
strings the code builds. -/
structure GdStudentState where
  db : DB
  imported : Nat
  updated : Nat
  errors : List (Nat × String)
  deriving Repr, DecidableEq

/-- The placeholder telegram handles treated as absent on insert
(google_drive_service.py line 179). -/
def placeholderTelegramIds : List String := ["@xyz", "@test", "@example"]

/-- The duplicate-resolution of `_import_students`
(google_drive_service.py lines 145-160): `existing_student` is looked up
by phone first (when the stripped phone is non-empty), and by telegram_id
only when the phone lookup found nothing and the stripped telegram_id is
non-empty. -/
def gdResolveExisting (db : DB) (phone telegram_id : String) : Option Student :=
  let byPhone := if phone ≠ "" then queryStudentByPhone db phone else none
  if byPhone = none && telegram_id ≠ "" then queryStudentByTelegram db telegram_id
  else byPhone

/-- The store queries issued by the duplicate-resolution of
`_import_students`, in program order. -/
def gdLookupEvents (db : DB) (phone telegram_id : String) : List ImportEvent :=
  let byPhone := if phone ≠ "" then queryStudentByPhone db phone else none
  (if phone ≠ "" then [ImportEvent.lookupPhone phone] else []) ++
  (if byPhone = none && telegram_id ≠ "" then [ImportEvent.lookupTelegram telegram_id] else [])

/-- The in-place overwrite of an existing student's mutable fields by an
update-on-match row (google_drive_service.py lines 162-172): name, phone,
email, belt and notes take the row's values; `telegram_id` is overwritten
only when the row's stripped telegram_id is non-empty and differs from the
stored one. -/
def gdUpdatedStudent (s : Student) (row : CsvRow) : Student :=
  let telegram_id := pyStrip (pyGet row "telegram_id" "")
  { s with
    first_name := pyGet row "first_name" ""
    last_name := pyGet row "last_name" ""
    phone := pyStrip (pyGet row "phone" "")
    email := some (pyGet row "email" "")
    current_belt := pyGet row "current_belt" "White"
    notes := some (pyGet row "notes" "")
    telegram_id :=
      if telegram_id ≠ "" && some telegram_id ≠ s.telegram_id then
        some telegram_id
      else s.telegram_id }

/-- The new student built by an insert row (google_drive_service.py lines
176-193): a placeholder or empty telegram handle is stored as empty. -/
def gdNewStudent (nextId : Nat) (row : CsvRow) : Student :=
  let telegram_id := pyStrip (pyGet row "telegram_id" "")
  let final_telegram_id :=
    if telegram_id = "" || placeholderTelegramIds.contains telegram_id then ""
    else telegram_id
  { id := nextId
    first_name := pyGet row "first_name" ""
    last_name := pyGet row "last_name" ""
    phone := pyGet row "phone" ""
    telegram_id := some final_telegram_id
    email := some (pyGet row "email" "")
    current_belt := pyGet row "current_belt" "White"
    notes := some (pyGet row "notes" "") }

/-- The part of the `_import_students` loop body after the name check
(google_drive_service.py lines 145-193): resolve a duplicate, then either
update the existing row in place or insert a new one. -/
def gdImportStudentRowBody (st : GdStudentState) (row : CsvRow) :
    GdStudentState × List ImportEvent :=
  let telegram_id := pyStrip (pyGet row "telegram_id" "")
  let phone := pyStrip (pyGet row "phone" "")
  let evs2 := gdLookupEvents st.db phone telegram_id
  match gdResolveExisting st.db phone telegram_id with
  | some s =>
    ({ st with
        db := { st.db with
                students := updateStudentById st.db.students s.id (gdUpdatedStudent s row) }
        updated := st.updated + 1 },
     evs2 ++ [ImportEvent.updateStudent s.id])
  | none =>
    ({ st with
        db := { st.db with
                students := st.db.students ++ [gdNewStudent st.db.nextStudentId row]
                nextStudentId := st.db.nextStudentId + 1 }
        imported := st.imported + 1 },
     evs2 ++ [ImportEvent.insertStudent st.db.nextStudentId])

/-- The loop body of `GoogleDriveService._import_students`
(google_drive_service.py lines 138-196) for one row, returning the new
state and the store actions performed for that row. -/
def gdImportStudentRow (st : GdStudentState) (rowNum : Nat) (row : CsvRow) :
    GdStudentState × List ImportEvent :=
  if pyGet row "first_name" "" = "" || pyGet row "last_name" "" = "" then
    ({ st with errors := st.errors ++ [(rowNum, "Отсутствует имя или фамилия")] }, [])
  else
    gdImportStudentRowBody st row

/-- The `for row_num, row in enumerate(csv_reader, start)` loop shared by
the import methods: thread the state through `step` row by row,
incrementing the row number, and collect the store actions. -/
def importLoop {σ : Type} (step : σ → Nat → CsvRow → σ × List ImportEvent) :
    σ → Nat → List CsvRow → σ × List ImportEvent
  | st, _, [] => (st, [])
  | st, n, row :: rest =>
    let (st', evs) := step st n row
    let (stFinal, evsRest) := importLoop step st' (n + 1) rest
    (stFinal, evs ++ evsRest)

/-- Result dict of the three `_import_*` methods
(google_drive_service.py lines 200-204, 273-277, 347-351):
`{'imported_count': ..., 'errors': ..., 'success': len(errors) == 0}`. -/
structure GdImportResult where
  imported_count : Nat
  errors : List (Nat × String)
  success : Bool
  deriving Repr, DecidableEq

/-- `GoogleDriveService._import_students` (lines 130-210), normal path:
run the row loop over `enumerate(csv_reader, 1)` (row numbers start at 1
on the first data row) from the empty counters, commit, and build the
result dict. -/
def gdImportStudents (db : DB) (rows : List CsvRow) : GdImportResult :=
  let (st, _) := importLoop gdImportStudentRow ⟨db, 0, 0, []⟩ 1 rows
  { imported_count := st.imported, errors := st.errors,
    success := st.errors.length == 0 }

/-- Running state of `GoogleDriveService._import_trainings`
(google_drive_service.py lines 214-216). -/
structure GdTrainingState where
  db : DB
  imported : Nat
  errors : List (Nat × String)
  deriving Repr, DecidableEq

/-- The loop body of `GoogleDriveService._import_trainings`
(google_drive_service.py lines 219-266) for one row.  `parseIso` models
`datetime.fromisoformat`; the code applies it to
`row['date'].replace('Z', '+00:00')` (line 228). -/
def gdImportTrainingRow (parseIso : String → Option Int)
    (st : GdTrainingState) (rowNum : Nat) (row : CsvRow) :
    GdTrainingState × List ImportEvent :=
  if pyGet row "date" "" = "" then
    ({ st with errors := st.errors ++ [(rowNum, "Отсутствует дата тренировки")] }, [])
  else
    match parseIso ((pyGet row "date" "").replace "Z" "+00:00") with
    | none =>
      ({ st with errors := st.errors ++ [(rowNum, "Неверный формат даты")] }, [])
    | some training_date =>
      let trainer_name := pyGet row "trainer_name" ""
      let (trainer, evs1) :=
        if trainer_name ≠ "" then
          match pySplitFirstSpace trainer_name with
          | [fn, ln] => (queryTrainerByName st.db fn ln, [ImportEvent.lookupTrainer fn ln])
          | _ => (none, [])
        else (none, [])
      match trainer with
      | none =>
        ({ st with errors := st.errors ++ [(rowNum, "Тренер не найден")] }, evs1)
      | some tr =>
        let evs2 := evs1 ++ [ImportEvent.dupCheckTraining training_date tr.id]
        match queryTrainingByDateTrainer st.db training_date tr.id with
        | some _ =>
          ({ st with errors := st.errors ++ [(rowNum, "Тренировка уже существует")] }, evs2)
        | none =>
          let training : Training :=
            { id := st.db.nextTrainingId, date := training_date,
              trainer_id := tr.id, notes := some (pyGet row "notes" "") }
          ({ st with
              db := { st.db with
                      trainings := st.db.trainings ++ [training]
                      nextTrainingId := st.db.nextTrainingId + 1 }
              imported := st.imported + 1 },
           evs2 ++ [ImportEvent.insertTraining training.id])

/-- `GoogleDriveService._import_trainings` (lines 212-283), normal path. -/
def gdImportTrainings (parseIso : String → Option Int) (db : DB)
    (rows : List CsvRow) : GdImportResult :=
  let (st, _) := importLoop (gdImportTrainingRow parseIso) ⟨db, 0, []⟩ 1 rows
  { imported_count := st.imported, errors := st.errors,
    success := st.errors.length == 0 }

/-- The loop body of `GoogleDriveService._import_payments`
(google_drive_service.py lines 292-343) for one row.  `parseFloat` models
Python `float(...)`; `now` models `datetime.now()` used as the default
`payment_date` (line 323); an unparseable `payment_date` silently falls
back to `now` (lines 324-328). -/
def gdImportPaymentRow (parseFloat : String → Option Rat)
    (parseIso : String → Option Int) (now : Int)
    (st : GdTrainingState) (rowNum : Nat) (row : CsvRow) :
    GdTrainingState × List ImportEvent :=
  if pyGet row "student_name" "" = "" || pyGet row "amount" "" = "" then
    ({ st with errors := st.errors ++ [(rowNum, "Отсутствует имя ученика или сумма")] }, [])
  else
    match pySplitFirstSpace (pyGet row "student_name" "") with
    | [fn, ln] =>
      match queryStudentByName st.db fn ln with
      | none =>
        ({ st with errors := st.errors ++ [(rowNum, "Ученик не найден")] },
         [ImportEvent.lookupStudentName fn ln])
      | some student =>
        match parseFloat (pyGet row "amount" "") with
        | none =>
          ({ st with errors := st.errors ++ [(rowNum, "Неверный формат суммы")] },
           [ImportEvent.lookupStudentName fn ln])
        | some amount =>
          let payment_date :=
            if pyGet row "payment_date" "" ≠ "" then
              (parseIso ((pyGet row "payment_date" "").replace "Z" "+00:00")).getD now
            else now
          let payment : Payment :=
            { id := st.db.nextPaymentId, student_id := student.id,
              amount := amount, payment_date := payment_date,
              payment_type := pyGet row "payment_type" "Monthly",
              description := some (pyGet row "description" "") }
          ({ st with
              db := { st.db with
                      payments := st.db.payments ++ [payment]
                      nextPaymentId := st.db.nextPaymentId + 1 }
              imported := st.imported + 1 },
           [ImportEvent.lookupStudentName fn ln, ImportEvent.insertPayment payment.id])
    | _ =>
      ({ st with errors := st.errors ++ [(rowNum, "Неверный формат имени ученика")] }, [])

/-- `GoogleDriveService._import_payments` (lines 285-357), normal path. -/
def gdImportPayments (parseFloat : String → Option Rat)
    (parseIso : String → Option Int) (now : Int) (db : DB)
    (rows : List CsvRow) : GdImportResult :=
  let (st, _) := importLoop (gdImportPaymentRow parseFloat parseIso now) ⟨db, 0, []⟩ 1 rows
  { imported_count := st.imported, errors := st.errors,
    success := st.errors.length == 0 }

/-! ## CSV format validation (google_drive_service.py lines 384-448 and
497-577; csv_import_service lines 74-132) -/

/-- Result dict of the Google-Drive-service validators: `{'valid': ...}`
plus the optional `error`, `headers`, `row_count` and (file variant only)
`encoding` keys. -/
structure GdValidation where
  valid : Bool
  error : Option String
  headers : Option (List String)
  row_count : Option Nat
  encoding : Option String
  deriving Repr, DecidableEq

/-- The `required_fields` dict of `GoogleDriveService.validate_csv_format`
and `validate_csv_file` (google_drive_service.py lines 409-413 and
537-541). -/
def gdRequiredFields (data_type : String) : Option (List String) :=
  if data_type = "students" then some ["first_name", "last_name"]
  else if data_type = "trainings" then some ["date", "trainer_name"]
  else if data_type = "payments" then some ["student_name", "amount"]
  else none

/-- The shared header check of both Google-Drive validators
(google_drive_service.py lines 406-442 и 533-571): `headers` is
`csv_reader.fieldnames` (`none` when the source is empty), defaulted to
`[]`; `rowCount` is `len(list(csv_reader))`. -/
def gdValidateHeaders (headers : Option (List String)) (rowCount : Nat)
    (data_type : String) : GdValidation :=
  let hdrs := headers.getD []
  match gdRequiredFields data_type with
  | none =>
    { valid := false, error := some ("Unsupported data type: " ++ data_type),
      headers := none, row_count := none, encoding := none }
  | some required =>
    let missing := required.filter (fun f => !hdrs.contains f)
    if missing ≠ [] then
      { valid := false,
        error := some ("Missing required fields: " ++ String.intercalate ", " missing),
        headers := some hdrs, row_count := none, encoding := none }
    else
      { valid := true, error := none, headers := some hdrs,
        row_count := some rowCount, encoding := none }

/-- `GoogleDriveService.validate_csv_file` (google_drive_service.py lines
497-577).  `usedEncoding` is the first encoding of the candidate list that
reads the file without `UnicodeDecodeError` (`none` if all fail). -/
def validate_csv_file (usedEncoding : Option String)
    (headers : Option (List String)) (rowCount : Nat) (data_type : String) :
    GdValidation :=
  match usedEncoding with
  | none =>
    { valid := false, error := some "Не удалось определить кодировку файла",
      headers := none, row_count := none, encoding := none }
  | some enc =>
    let r := gdValidateHeaders headers rowCount data_type
    if r.valid then { r with encoding := some enc } else r

/-- `GoogleDriveService.validate_csv_format` (google_drive_service.py
lines 384-448), the URL variant, after a successful fetch. -/
def validate_csv_url (headers : Option (List String)) (rowCount : Nat)
    (data_type : String) : GdValidation :=
  gdValidateHeaders headers rowCount data_type

/-- Result dict of `CSVImportService.validate_csv_format`
(csv_import_service lines 102-126). -/
structure LocalValidation where
  valid : Bool
  error : Option String
  headers : Option (List String)
  row_count : Option Nat
  deriving Repr, DecidableEq

/-- `CSVImportService.validate_csv_format`
(csv_import_service_20251025004101.py lines 74-132), after encoding
detection and delimiter sniffing succeed: `headers` is
`reader.fieldnames`, `rowCount` counts the data rows. -/
def local_validate_csv_format (headers : Option (List String))
    (rowCount : Nat) : LocalValidation :=
  match headers with
  | none =>
    { valid := false, error := some "CSV файл не содержит заголовков",
      headers := none, row_count := none }
  | some hdrs =>
    let required_columns := ["first_name", "last_name", "phone"]
    let missing := required_columns.filter (fun col => !hdrs.contains col)
    if missing ≠ [] then
      { valid := false,
        error := some ("Отсутствуют обязательные колонки: " ++ String.intercalate ", " missing),
        headers := none, row_count := none }
    else
      { valid := true, error := none, headers := some hdrs,
        row_count := some rowCount }

/-! ## Encoding detection (csv_import_service lines 38-72) -/

/-- The fallback probe list of `CSVImportService.detect_encoding`
(csv_import_service line 60). -/
def fallbackEncodings : List String := ["utf-8", "windows-1251", "cp1251", "iso-8859-1"]

/-- The fallback probe loop (csv_import_service lines 60-67): return the
first encoding of the list under which reading a 1000-character prefix of
the file raises no `UnicodeDecodeError` (`decodes`), `none` if all fail. -/
def probeFallbacks (decodes : String → Bool) : List String → Option String
  | [] => none
  | e :: rest => if decodes e then some e else probeFallbacks decodes rest

/-- `CSVImportService.detect_encoding` (csv_import_service lines 38-72).
`chardetEncoding`/`confidence` are `chardet.detect` on the first 10 KB
(`encoding` may be `None`); `decodes e` tells whether decoding the prefix
with encoding `e` succeeds; `ioError` models an exception while reading
the file, caught at line 70. -/
def detect_encoding (chardetEncoding : Option String) (confidence : Rat)
    (decodes : String → Bool) (ioError : Bool) : String :=
  if ioError then "utf-8"
  else if confidence < 7/10 then
    match probeFallbacks decodes fallbackEncodings with
    | some fb => fb
    | none => chardetEncoding.getD "utf-8"
  else chardetEncoding.getD "utf-8"

/-! ## Local CSV student import
(.history/app/services/csv_import_service_20251025004101.py) -/

/-- Python `value or None` on a stripped cell: empty string becomes
`None`. -/
def orNone (s : String) : Option String :=
  if s = "" then none else some s

/-- The SQLite `UNIQUE` constraints on `students.phone` and
`students.telegram_id` (app/models/__init__.py lines 15-16): an insert
conflicts when an existing row has the same phone, or the same non-NULL
telegram_id.  `StudentController.create_student`
(.history/app/controllers/__init___20251025002443.py lines 22-37) commits
per call, so the conflict surfaces as an `IntegrityError` inside the row
loop. -/
def studentInsertConflict (db : DB) (phone : String) (tg : Option String) : Bool :=
  db.students.any (fun s => s.phone == phone || (tg.isSome && s.telegram_id == tg))

/-- Stand-in for `str(IntegrityError)` appended to the row error
(the exact SQLAlchemy text is irrelevant to the claims). -/
def integrityErrorText : String := "IntegrityError: UNIQUE constraint failed"

/-- Running state of `CSVImportService.import_students_from_csv`
(csv_import_service lines 158-160). -/
structure LocalImportState where
  db : DB
  imported : Nat
  skipped : Nat
  errors : List (Nat × String)
  deriving Repr, DecidableEq

/-- The loop body of `CSVImportService.import_students_from_csv`
(csv_import_service lines 169-216) for one row: strip the cells, reject an
empty first name, last name or phone with a row error; when
`skip_duplicates` look up the phone and silently skip a hit; otherwise
`create_student`, which raises `IntegrityError` on a phone or telegram_id
uniqueness conflict — caught at lines 213-216 as a row error. -/
def localImportStudentRow (skip_duplicates : Bool) (st : LocalImportState)
    (rowNum : Nat) (row : CsvRow) : LocalImportState × List ImportEvent :=
  let first_name := pyStrip (pyGet row "first_name" "")
  let last_name := pyStrip (pyGet row "last_name" "")
  let phone := pyStrip (pyGet row "phone" "")
  let telegram_id := orNone (pyStrip (pyGet row "telegram_id" ""))
  let email := orNone (pyStrip (pyGet row "email" ""))
  let current_belt := pyStrip (pyGet row "current_belt" "White")
  let notes := orNone (pyStrip (pyGet row "notes" ""))
  if first_name = "" then
    ({ st with errors := st.errors ++ [(rowNum, "Имя не может быть пустым")] }, [])
  else if last_name = "" then
    ({ st with errors := st.errors ++ [(rowNum, "Фамилия не может быть пустой")] }, [])
  else if phone = "" then
    ({ st with errors := st.errors ++ [(rowNum, "Телефон не может быть пустым")] }, [])
  else
    let dupHit := skip_duplicates && (queryStudentByPhone st.db phone).isSome
    let evs0 := if skip_duplicates then [ImportEvent.lookupPhone phone] else []
    if dupHit then
      ({ st with skipped := st.skipped + 1 }, evs0)
    else if studentInsertConflict st.db phone telegram_id then
      ({ st with errors := st.errors ++ [(rowNum, integrityErrorText)] }, evs0)
    else
      let student : Student :=
        { id := st.db.nextStudentId
          first_name := first_name
          last_name := last_name
          phone := phone
          telegram_id := telegram_id
          email := email
          current_belt := current_belt
          notes := notes }
      ({ st with
          db := { st.db with
                  students := st.db.students ++ [student]
                  nextStudentId := st.db.nextStudentId + 1 }
          imported := st.imported + 1 },
       evs0 ++ [ImportEvent.insertStudent student.id])

/-- Result dict of `CSVImportService.import_students_from_csv`
(csv_import_service lines 150-156, 218-224). -/
structure LocalImportResult where
  success : Bool
  error : Option String
  imported_count : Nat
  skipped_count : Nat
  errors : List (Nat × String)
  total_rows : Option Nat
  deriving Repr, DecidableEq

/-- `CSVImportService.import_students_from_csv` (csv_import_service lines
134-234): return a failure dict if format validation failed, otherwise run
the row loop over `enumerate(reader, start=2)` (the header is row 1) and
return `'success': True` unconditionally. -/
def import_students_from_csv (validation : LocalValidation) (db : DB)
    (skip_duplicates : Bool) (rows : List CsvRow) : LocalImportResult :=
  if !validation.valid then
    { success := false, error := validation.error, imported_count := 0,
      skipped_count := 0, errors := [], total_rows := none }
  else
    let (st, _) := importLoop (localImportStudentRow skip_duplicates) ⟨db, 0, 0, []⟩ 2 rows
    { success := true, error := none, imported_count := st.imported,
      skipped_count := st.skipped, errors := st.errors,
      total_rows := validation.row_count }

/-- The full local-import run including its event trace, used to reason
about which store lookups the local variant performs. -/
def localImportRun (db : DB) (skip_duplicates : Bool) (rows : List CsvRow) :
    LocalImportState × List ImportEvent :=
  importLoop (localImportStudentRow skip_duplicates) ⟨db, 0, 0, []⟩ 2 rows

/-! ## Example data (used by witnesses and counterexamples) -/

/-- An example trainer on file. -/
def exTrainer : Trainer := { id := 1, first_name := "Иван", last_name := "Петров" }

/-- An example student on file, with both a phone and a telegram handle. -/
def exStudent : Student :=
  { id := 1, first_name := "Анна", last_name := "Смирнова",
    phone := "+7-900-000-00-01", telegram_id := some "@anna",
    email := none, current_belt := "White", notes := none }

/-- A store holding `exStudent` and `exTrainer`. -/
def exDB : DB :=
  { students := [exStudent], trainers := [exTrainer], trainings := [],
    payments := [], nextStudentId := 2, nextTrainingId := 1, nextPaymentId := 1 }

/-- An empty store. -/
def emptyDB : DB :=
  { students := [], trainers := [], trainings := [], payments := [],
    nextStudentId := 1, nextTrainingId := 1, nextPaymentId := 1 }

/-- A backup record naming both artifacts. -/
def exBackupInfo : BackupInfo :=
  { timestamp := "20251012_120000",
    db_file := some "bjj_crm_20251012_120000.db",
    files_file := some "bjj_crm_files_20251012_120000.tar.gz",
    include_files := true,
    file_sizes_database := some 4096, file_sizes_files := some 1024 }

/-- A backup directory with one stale file and one fresh file. -/
def exBackupDir : List BackupDirFile :=
  [{ name := "bjj_crm_old.db", mtime := 0 },
   { name := "bjj_crm_new.db", mtime := 999999 }]

/-- The spec's end-to-end scenario: a three-data-row Student CSV whose
second data row has an empty phone. -/
def threeRowCsv : List CsvRow :=
  [[("first_name", "Иван"), ("last_name", "Иванов"), ("phone", "+7-900-000-00-11")],
   [("first_name", "Петр"), ("last_name", "Петров"), ("phone", "")],
   [("first_name", "Анна"), ("last_name", "Белова"), ("phone", "+7-900-000-00-13")]]

/-- A passing format validation for `threeRowCsv`. -/
def threeRowValidation : LocalValidation :=
  local_validate_csv_format (some ["first_name", "last_name", "phone"]) 3

/-- A row whose phone matches no stored student but whose telegram handle
matches `exStudent`. -/
def telegramOnlyDupRow : CsvRow :=
  [("first_name", "Олег"), ("last_name", "Сидоров"),
   ("phone", "+7-900-000-00-02"), ("telegram_id", "@anna")]

/-- A two-row remote batch: one importable row and one row missing its
name. -/
def mixedRows : List CsvRow :=
  [[("first_name", "Олег"), ("last_name", "Сидоров"), ("phone", "+7-900-000-00-03")],
   [("first_name", ""), ("last_name", "Иванов")]]

/-- A row whose phone matches `exStudent` but whose telegram handle
differs. -/
def phoneDupRow : CsvRow :=
  [("first_name", "Анна"), ("last_name", "Смирнова"),
   ("phone", "+7-900-000-00-01"), ("telegram_id", "@other")]

/-- The initial loop state of a remote student import over `exDB`. -/
def exGdState : GdStudentState := ⟨exDB, 0, 0, []⟩

/-- A row with an unparseable training date. -/
def badDateRow : CsvRow :=
  [("date", "not-a-date"), ("trainer_name", "Иван Петров")]

/-- The initial loop state of a remote training import over `exDB`. -/
def exGdTrainingState : GdTrainingState := ⟨exDB, 0, []⟩

/-! # Theorems -/

/-- The sweep loop of `cleanup_old_backups` keeps exactly the files at or
after the cutoff (in order) and counts exactly the removed ones. -/
theorem cleanupLoop_spec (cutoff : Int) (dir : List BackupDirFile) :
    cleanupLoop cutoff dir =
      (dir.filter (fun f => !(decide (f.mtime < cutoff))),
       (dir.filter (fun f => decide (f.mtime < cutoff))).length) := by
  induction dir with
  | nil => rfl
  | cons f rest ih =>
    simp only [cleanupLoop, ih, List.filter]
    by_cases h : f.mtime < cutoff <;> simp [h]

/-- C1: for every restore invocation whose backup record names an existing
database snapshot (and whose live database file is readable, so the safety
copy itself succeeds), `restore_backup` writes the timestamped safety copy
of the live database strictly before overwriting it with the snapshot: the
action trace begins with the safety copy followed by the overwrite.  This
holds for every outcome of the rest of the restore, in particular when the
subsequent file-archive extraction fails. -/
theorem restore_backup_safety_copy_first
    (info : BackupInfo) (restore_files : Bool) (fsExists : String → Bool)
    (extractOk : Bool) (nowTs : String) (p : String)
    (hdb : info.db_file = some p) (hex : fsExists p = true) :
    ∃ rest, (restore_backup info restore_files fsExists true extractOk nowTs).1
      = RestoreEvent.safetyCopy ("bjj_crm.db.backup_" ++ nowTs)
        :: RestoreEvent.overwriteDb p :: rest := by
  unfold restore_backup
  rw [hdb]
  simp only [hex, if_true]
  cases hff : info.files_file with
  | none => exact ⟨[], rfl⟩
  | some q =>
    by_cases hrf : restore_files && fsExists q
    · by_cases hok : extractOk
      · exact ⟨[RestoreEvent.extractFiles q], by simp [hrf, hok]⟩
      · exact ⟨[], by simp [hrf, hok]⟩
    · exact ⟨[], by simp [hrf]⟩

/-- Witness for C1: restoring from `exBackupInfo` with an existing
snapshot, a readable live database and a FAILING archive extraction still
puts the safety copy first in the trace. -/
theorem restore_backup_safety_copy_first_witness :
    exBackupInfo.db_file = some "bjj_crm_20251012_120000.db"
    ∧ (fun _ : String => true) "bjj_crm_20251012_120000.db" = true
    ∧ ∃ rest,
        (restore_backup exBackupInfo true (fun _ => true) true false "20251012_130000").1
          = RestoreEvent.safetyCopy ("bjj_crm.db.backup_" ++ "20251012_130000")
            :: RestoreEvent.overwriteDb "bjj_crm_20251012_120000.db" :: rest :=
  ⟨rfl, rfl,
   restore_backup_safety_copy_first exBackupInfo true (fun _ => true) false
     "20251012_130000" "bjj_crm_20251012_120000.db" rfl rfl⟩

/-- C7: `create_backup` with `include_files = False` writes exactly one
database snapshot and one metadata sidecar and no archive, and records
`files_file` (and the archive size) as absent; with
`include_files = True` it additionally writes exactly one `.tar.gz`
archive and records the archive's byte size in `file_sizes`. -/
theorem create_backup_artifacts (ts : String) (dbSize tarSize : Nat) :
    ((create_backup false ts dbSize tarSize).2.countP WriteEvent.isDbCopy = 1
     ∧ (create_backup false ts dbSize tarSize).2.countP WriteEvent.isMetadata = 1
     ∧ (create_backup false ts dbSize tarSize).2.countP WriteEvent.isTar = 0
     ∧ (create_backup false ts dbSize tarSize).1.files_file = none
     ∧ (create_backup false ts dbSize tarSize).1.file_sizes_files = none
     ∧ (create_backup false ts dbSize tarSize).1.file_sizes_database = some dbSize)
    ∧ ((create_backup true ts dbSize tarSize).2.countP WriteEvent.isDbCopy = 1
     ∧ (create_backup true ts dbSize tarSize).2.countP WriteEvent.isMetadata = 1
     ∧ (create_backup true ts dbSize tarSize).2.countP WriteEvent.isTar = 1
     ∧ (create_backup true ts dbSize tarSize).1.files_file
         = some ("bjj_crm_files_" ++ ts ++ ".tar.gz")
     ∧ (create_backup true ts dbSize tarSize).1.file_sizes_files = some tarSize) := by
  exact ⟨⟨rfl, rfl, rfl, rfl, rfl, rfl⟩, ⟨rfl, rfl, rfl, rfl, rfl⟩⟩

/-- Witness for C7 at a concrete timestamp and sizes. -/
theorem create_backup_artifacts_witness :
    ((create_backup false "20251012_120000" 4096 1024).2.countP WriteEvent.isDbCopy = 1
     ∧ (create_backup false "20251012_120000" 4096 1024).2.countP WriteEvent.isMetadata = 1
     ∧ (create_backup false "20251012_120000" 4096 1024).2.countP WriteEvent.isTar = 0
     ∧ (create_backup false "20251012_120000" 4096 1024).1.files_file = none
     ∧ (create_backup false "20251012_120000" 4096 1024).1.file_sizes_files = none
     ∧ (create_backup false "20251012_120000" 4096 1024).1.file_sizes_database = some 4096)
    ∧ ((create_backup true "20251012_120000" 4096 1024).2.countP WriteEvent.isDbCopy = 1
     ∧ (create_backup true "20251012_120000" 4096 1024).2.countP WriteEvent.isMetadata = 1
     ∧ (create_backup true "20251012_120000" 4096 1024).2.countP WriteEvent.isTar = 1
     ∧ (create_backup true "20251012_120000" 4096 1024).1.files_file
         = some ("bjj_crm_files_" ++ "20251012_120000" ++ ".tar.gz")
     ∧ (create_backup true "20251012_120000" 4096 1024).1.file_sizes_files = some 1024) :=
  create_backup_artifacts "20251012_120000" 4096 1024

/-- C8: `cleanup_old_backups keep_days` removes from the backup directory
exactly the files whose modification time is strictly before
`now - keep_days` days — regardless of file kind — returning their count,
and keeps every file at or after the cutoff untouched (in order). -/
theorem cleanup_old_backups_spec (keep_days : Nat) (now : Int)
    (dir : List BackupDirFile) :
    (cleanup_old_backups keep_days now dir).1
      = dir.filter (fun f => !(decide (f.mtime < now - (keep_days : Int) * 24 * 3600)))
    ∧ (cleanup_old_backups keep_days now dir).2
      = (dir.filter (fun f => decide (f.mtime < now - (keep_days : Int) * 24 * 3600))).length := by
  unfold cleanup_old_backups
  rw [cleanupLoop_spec]
  exact ⟨rfl, rfl⟩

/-- Witness for C8: a 7-day sweep at time 1000000 on a directory holding
one stale and one fresh file. -/
theorem cleanup_old_backups_spec_witness :
    ((cleanup_old_backups 7 1000000 exBackupDir).1
      = exBackupDir.filter (fun f => !(decide (f.mtime < 1000000 - (7 : Int) * 24 * 3600)))
    ∧ (cleanup_old_backups 7 1000000 exBackupDir).2
      = (exBackupDir.filter (fun f => decide (f.mtime < 1000000 - (7 : Int) * 24 * 3600))).length)
    ∧ cleanup_old_backups 7 1000000 exBackupDir = ([{ name := "bjj_crm_new.db", mtime := 999999 }], 1) :=
  ⟨cleanup_old_backups_spec 7 1000000 exBackupDir, by decide⟩

/-- `len(errors) == 0` as a Bool equals the proposition that the list is
empty. -/
theorem lengthBeqZero {α : Type} (l : List α) : ((l.length == 0) = true) ↔ l = [] := by
  cases l <;> simp

/-- C10: every remote-import batch (students, trainings, payments) reports
`success` exactly when its per-row error list is empty, while the
local-file Student import reports `success = True` whenever format
validation passed, regardless of row errors. -/
theorem import_success_flag (db : DB) (rows : List CsvRow)
    (parseIso : String → Option Int) (parseFloat : String → Option Rat)
    (now : Int) (validation : LocalValidation) (skip_duplicates : Bool)
    (hval : validation.valid = true) :
    ((gdImportStudents db rows).success = true ↔ (gdImportStudents db rows).errors = [])
    ∧ ((gdImportTrainings parseIso db rows).success = true
        ↔ (gdImportTrainings parseIso db rows).errors = [])
    ∧ ((gdImportPayments parseFloat parseIso now db rows).success = true
        ↔ (gdImportPayments parseFloat parseIso now db rows).errors = [])
    ∧ (import_students_from_csv validation db skip_duplicates rows).success = true := by
  refine ⟨?_, ?_, ?_, ?_⟩
  · unfold gdImportStudents
    exact lengthBeqZero _
  · unfold gdImportTrainings
    exact lengthBeqZero _
  · unfold gdImportPayments
    exact lengthBeqZero _
  · unfold import_students_from_csv
    rw [hval]
    rfl

/-- Witness for C10 on a concrete mixed batch (one imported row, one
failing row): the remote student import reports `success = false` even
though a row was imported, while the local import reports
`success = true`. -/
theorem import_success_flag_witness :
    threeRowValidation.valid = true
    ∧ (((gdImportStudents exDB mixedRows).success = true
          ↔ (gdImportStudents exDB mixedRows).errors = [])
       ∧ ((gdImportTrainings (fun _ => none) exDB mixedRows).success = true
          ↔ (gdImportTrainings (fun _ => none) exDB mixedRows).errors = [])
       ∧ ((gdImportPayments (fun _ => none) (fun _ => none) 0 exDB mixedRows).success = true
          ↔ (gdImportPayments (fun _ => none) (fun _ => none) 0 exDB mixedRows).errors = [])
       ∧ (import_students_from_csv threeRowValidation exDB true mixedRows).success = true)
    ∧ (gdImportStudents exDB mixedRows).success = false
    ∧ (gdImportStudents exDB mixedRows).imported_count = 1
    ∧ (gdImportStudents exDB mixedRows).errors ≠ [] :=
  ⟨rfl,
   import_success_flag exDB mixedRows (fun _ => none) (fun _ => none) 0
     threeRowValidation true rfl,
   by decide, by decide, by decide⟩

/-- C3 counterexample: with the statistical detector reporting `koi8-r` at
confidence 0.5 (below 0.70) and every fallback probe failing to decode,
`detect_encoding` returns the detected `koi8-r`, not `utf-8` — refuting
"if all four probes fail ... it returns 'utf-8'". -/
theorem detect_encoding_counterexample :
    (1 / 2 : Rat) < 7 / 10
    ∧ probeFallbacks (fun _ => false) fallbackEncodings = none
    ∧ detect_encoding (some "koi8-r") (1 / 2) (fun _ => false) false = "koi8-r"
    ∧ detect_encoding (some "koi8-r") (1 / 2) (fun _ => false) false ≠ "utf-8" := by
  have hres : detect_encoding (some "koi8-r") (1 / 2) (fun _ => false) false = "koi8-r" := by
    unfold detect_encoding
    rw [if_neg (by simp), if_pos (by norm_num : (1 / 2 : Rat) < 7 / 10)]
    rfl
  refine ⟨by norm_num, rfl, hres, ?_⟩
  rw [hres]
  decide

/-- C3 amended: when the detector's confidence is below 0.70,
`detect_encoding` probes `utf-8, windows-1251, cp1251, iso-8859-1` in that
order and returns the first that decodes the prefix; if all four probes
fail it returns the statistically detected encoding when one was reported
and `utf-8` otherwise; on an I/O error it returns `utf-8`. -/
theorem detect_encoding_spec (enc : Option String) (conf : Rat)
    (decodes : String → Bool) :
    (detect_encoding enc conf decodes true = "utf-8")
    ∧ (conf < 7 / 10 → decodes "utf-8" = true →
        detect_encoding enc conf decodes false = "utf-8")
    ∧ (conf < 7 / 10 → decodes "utf-8" = false → decodes "windows-1251" = true →
        detect_encoding enc conf decodes false = "windows-1251")
    ∧ (conf < 7 / 10 → decodes "utf-8" = false → decodes "windows-1251" = false →
        decodes "cp1251" = true →
        detect_encoding enc conf decodes false = "cp1251")
    ∧ (conf < 7 / 10 → decodes "utf-8" = false → decodes "windows-1251" = false →
        decodes "cp1251" = false → decodes "iso-8859-1" = true →
        detect_encoding enc conf decodes false = "iso-8859-1")
    ∧ (conf < 7 / 10 → decodes "utf-8" = false → decodes "windows-1251" = false →
        decodes "cp1251" = false → decodes "iso-8859-1" = false →
        detect_encoding enc conf decodes false = enc.getD "utf-8")
    ∧ (¬(conf < 7 / 10) → detect_encoding enc conf decodes false = enc.getD "utf-8") := by
  refine ⟨rfl, ?_, ?_, ?_, ?_, ?_, ?_⟩
  · intro hc h1
    simp [detect_encoding, fallbackEncodings, probeFallbacks, hc, h1]
  · intro hc h1 h2
    simp [detect_encoding, fallbackEncodings, probeFallbacks, hc, h1, h2]
  · intro hc h1 h2 h3
    simp [detect_encoding, fallbackEncodings, probeFallbacks, hc, h1, h2, h3]
  · intro hc h1 h2 h3 h4
    simp [detect_encoding, fallbackEncodings, probeFallbacks, hc, h1, h2, h3, h4]
  · intro hc h1 h2 h3 h4
    simp [detect_encoding, fallbackEncodings, probeFallbacks, hc, h1, h2, h3, h4]
  · intro hc
    simp [detect_encoding, hc]

/-- Witness for C3 amended: ASCII-only content decodes under `utf-8`, so a
low-confidence detection falls back to `utf-8` as the first probe. -/
theorem detect_encoding_spec_witness :
    ((1 / 2 : Rat) < 7 / 10)
    ∧ (fun _ : String => true) "utf-8" = true
    ∧ detect_encoding (some "ascii") (1 / 2) (fun _ => true) false = "utf-8" :=
  ⟨by norm_num, rfl,
   (detect_encoding_spec (some "ascii") (1 / 2) (fun _ => true)).2.1 (by norm_num) rfl⟩

/-- C4 counterexample: a Student header row WITHOUT `phone` passes the
Google-Drive-service file validator (`valid = true`), refuting the claim
that the Student required-column set is
`{first_name, last_name, phone}` for every source. -/
theorem validate_csv_counterexample :
    (validate_csv_file (some "utf-8") (some ["first_name", "last_name"]) 1 "students").valid = true
    ∧ ¬ ("phone" ∈ (["first_name", "last_name"] : List String)) := by
  decide

/-- The `.valid` flag of `validate_csv_file` agrees with the shared header
check whenever an encoding was found. -/
theorem validate_csv_file_valid (enc : String) (headers : Option (List String))
    (n : Nat) (dt : String) :
    (validate_csv_file (some enc) headers n dt).valid
      = (gdValidateHeaders headers n dt).valid := by
  unfold validate_csv_file
  by_cases h : (gdValidateHeaders headers n dt).valid <;> simp [h]

/-- `gdValidateHeaders` with known headers and a known required-field set,
as a plain conditional. -/
theorem gdValidateHeaders_some (hdrs : List String) (n : Nat) (dt : String)
    (req : List String) (h : gdRequiredFields dt = some req) :
    gdValidateHeaders (some hdrs) n dt =
      (if req.filter (fun f => !hdrs.contains f) ≠ [] then
        { valid := false,
          error := some ("Missing required fields: "
              ++ String.intercalate ", " (req.filter (fun f => !hdrs.contains f))),
          headers := some hdrs, row_count := none, encoding := none }
       else
        { valid := true, error := none, headers := some hdrs,
          row_count := some n, encoding := none }) := by
  unfold gdValidateHeaders
  rw [h]
  rfl

/-- `local_validate_csv_format` with a present header row, as a plain
conditional. -/
theorem local_validate_some (hdrs : List String) (n : Nat) :
    local_validate_csv_format (some hdrs) n =
      (if ["first_name", "last_name", "phone"].filter (fun col => !hdrs.contains col) ≠ [] then
        { valid := false,
          error := some ("Отсутствуют обязательные колонки: "
              ++ String.intercalate ", "
                   (["first_name", "last_name", "phone"].filter (fun col => !hdrs.contains col))),
          headers := none, row_count := none }
       else
        { valid := true, error := none, headers := some hdrs,
          row_count := some n }) := rfl

/-- The Google-Drive header check accepts exactly the header rows
containing every required column of the data type. -/
theorem gdValidateHeaders_valid_iff (hdrs : List String) (n : Nat)
    (dt : String) (req : List String) (h : gdRequiredFields dt = some req) :
    ((gdValidateHeaders (some hdrs) n dt).valid = true) ↔ ∀ f ∈ req, f ∈ hdrs := by
  rw [gdValidateHeaders_some hdrs n dt req h]
  split
  next hmiss =>
    constructor
    · intro hfalse
      simp at hfalse
    · intro hall
      exact absurd (List.filter_eq_nil_iff.mpr (fun f hf => by simp [hall f hf])) hmiss
  next hmiss =>
    have hm : List.filter (fun f => !hdrs.contains f) req = [] := not_not.mp hmiss
    constructor
    · intro _ f hf
      have := List.filter_eq_nil_iff.mp hm f hf
      simpa using this
    · intro _
      rfl

/-- The local validator accepts exactly the header rows containing
`first_name`, `last_name` and `phone`. -/
theorem local_validate_valid_iff (hdrs : List String) (n : Nat) :
    ((local_validate_csv_format (some hdrs) n).valid = true)
      ↔ ∀ f ∈ ["first_name", "last_name", "phone"], f ∈ hdrs := by
  rw [local_validate_some hdrs n]
  split
  next hmiss =>
    constructor
    · intro hfalse
      simp at hfalse
    · intro hall
      exact absurd (List.filter_eq_nil_iff.mpr (fun f hf => by simp [hall f hf])) hmiss
  next hmiss =>
    have hm : List.filter (fun c => !hdrs.contains c) ["first_name", "last_name", "phone"] = [] :=
      not_not.mp hmiss
    constructor
    · intro _ f hf
      have := List.filter_eq_nil_iff.mp hm f hf
      simpa using this
    · intro _
      rfl

/-- C4 amended: the required-column sets are `{first_name, last_name}` for
Student in BOTH Google-Drive validators (file and URL variants),
`{date, trainer_name}` for Training and `{student_name, amount}` for
Payment, and `{first_name, last_name, phone}` for Student in the local
`CSVImportService` validator; a header row missing required columns yields
`valid = false` with an error naming exactly the missing columns, a
missing header row fails the local validator, and otherwise validation
returns `valid = true` with the headers and the data-row count. -/
theorem validate_required_columns (hdrs : List String) (n : Nat) (enc : String) :
    ((validate_csv_file (some enc) (some hdrs) n "students").valid = true
       ↔ ("first_name" ∈ hdrs ∧ "last_name" ∈ hdrs))
    ∧ ((validate_csv_url (some hdrs) n "students").valid = true
       ↔ ("first_name" ∈ hdrs ∧ "last_name" ∈ hdrs))
    ∧ ((validate_csv_url (some hdrs) n "trainings").valid = true
       ↔ ("date" ∈ hdrs ∧ "trainer_name" ∈ hdrs))
    ∧ ((validate_csv_url (some hdrs) n "payments").valid = true
       ↔ ("student_name" ∈ hdrs ∧ "amount" ∈ hdrs))
    ∧ ((local_validate_csv_format (some hdrs) n).valid = true
       ↔ ("first_name" ∈ hdrs ∧ "last_name" ∈ hdrs ∧ "phone" ∈ hdrs))
    ∧ (["first_name", "last_name"].filter (fun f => !hdrs.contains f) ≠ [] →
        (gdValidateHeaders (some hdrs) n "students").valid = false
        ∧ (gdValidateHeaders (some hdrs) n "students").error
            = some ("Missing required fields: "
                ++ String.intercalate ", "
                     (["first_name", "last_name"].filter (fun f => !hdrs.contains f))))
    ∧ (["first_name", "last_name"].filter (fun f => !hdrs.contains f) = [] →
        (gdValidateHeaders (some hdrs) n "students").headers = some hdrs
        ∧ (gdValidateHeaders (some hdrs) n "students").row_count = some n)
    ∧ (["first_name", "last_name", "phone"].filter (fun c => !hdrs.contains c) ≠ [] →
        (local_validate_csv_format (some hdrs) n).valid = false
        ∧ (local_validate_csv_format (some hdrs) n).error
            = some ("Отсутствуют обязательные колонки: "
                ++ String.intercalate ", "
                     (["first_name", "last_name", "phone"].filter (fun c => !hdrs.contains c))))
    ∧ (["first_name", "last_name", "phone"].filter (fun c => !hdrs.contains c) = [] →
        (local_validate_csv_format (some hdrs) n).headers = some hdrs
        ∧ (local_validate_csv_format (some hdrs) n).row_count = some n)
    ∧ (local_validate_csv_format none n).valid = false := by
  refine ⟨?_, ?_, ?_, ?_, ?_, ?_, ?_, ?_, ?_, rfl⟩
  · rw [validate_csv_file_valid, gdValidateHeaders_valid_iff hdrs n "students" _ rfl]
    simp
  · rw [show validate_csv_url (some hdrs) n "students" = gdValidateHeaders (some hdrs) n "students" from rfl,
       gdValidateHeaders_valid_iff hdrs n "students" _ rfl]
    simp
  · rw [show validate_csv_url (some hdrs) n "trainings" = gdValidateHeaders (some hdrs) n "trainings" from rfl,
       gdValidateHeaders_valid_iff hdrs n "trainings" _ rfl]
    simp
  · rw [show validate_csv_url (some hdrs) n "payments" = gdValidateHeaders (some hdrs) n "payments" from rfl,
       gdValidateHeaders_valid_iff hdrs n "payments" _ rfl]
    simp
  · rw [local_validate_valid_iff hdrs n]
    simp
  · intro hm
    rw [gdValidateHeaders_some hdrs n "students" ["first_name", "last_name"] rfl,
       if_pos hm]
    exact ⟨rfl, rfl⟩
  · intro hm
    rw [gdValidateHeaders_some hdrs n "students" ["first_name", "last_name"] rfl,
       if_neg (not_not.mpr hm)]
    exact ⟨rfl, rfl⟩
  · intro hm
    rw [local_validate_some hdrs n, if_pos hm]
    exact ⟨rfl, rfl⟩
  · intro hm
    rw [local_validate_some hdrs n, if_neg (not_not.mpr hm)]
    exact ⟨rfl, rfl⟩

/-- Witness for C4 amended: a full Student header passes both validators;
dropping `phone` still passes the Google-Drive validator but fails the
local one with an error naming `phone`. -/
theorem validate_required_columns_witness :
    ((validate_csv_file (some "utf-8") (some ["first_name", "last_name", "phone"]) 3 "students").valid = true
       ↔ ("first_name" ∈ (["first_name", "last_name", "phone"] : List String)
          ∧ "last_name" ∈ (["first_name", "last_name", "phone"] : List String)))
    ∧ ((local_validate_csv_format (some ["first_name", "last_name"]) 3).valid = false
       ∧ (local_validate_csv_format (some ["first_name", "last_name"]) 3).error
           = some ("Отсутствуют обязательные колонки: "
               ++ String.intercalate ", "
                    (["first_name", "last_name", "phone"].filter
                      (fun c => !(["first_name", "last_name"] : List String).contains c)))) :=
  ⟨(validate_required_columns ["first_name", "last_name", "phone"] 3 "utf-8").1,
   (validate_required_columns ["first_name", "last_name"] 3 "utf-8").2.2.2.2.2.2.2.1 (by decide)⟩

/-- C6 counterexample: importing the spec's three-data-row Student CSV
whose SECOND data row has an empty phone yields one error, but no error
names row 2 — the local import numbers data rows starting at 2 (the header
is row 1), so the failing row is reported as row 3, refuting
`errors == ["Row 2: ..."]`. -/
theorem local_import_row_numbering_counterexample :
    (import_students_from_csv threeRowValidation emptyDB true threeRowCsv).imported_count = 2
    ∧ (import_students_from_csv threeRowValidation emptyDB true threeRowCsv).skipped_count = 0
    ∧ (import_students_from_csv threeRowValidation emptyDB true threeRowCsv).errors.length = 1
    ∧ ∀ e ∈ (import_students_from_csv threeRowValidation emptyDB true threeRowCsv).errors,
        e.1 ≠ 2 := by
  decide

/-- C6 amended: each row-level failure appends exactly one error carrying
the row's position and the loop continues past it; the local import counts
the header as row 1 (data rows start at 2), so the three-data-row scenario
with an empty phone in the second data row yields `imported_count = 2`,
`skipped_count = 0` and the single error `Строка 3`, while the
remote-import variant numbers data rows from 1 (a first-data-row failure
is reported as row 1). -/
theorem local_import_row_numbering :
    (import_students_from_csv threeRowValidation emptyDB true threeRowCsv).imported_count = 2
    ∧ (import_students_from_csv threeRowValidation emptyDB true threeRowCsv).skipped_count = 0
    ∧ (import_students_from_csv threeRowValidation emptyDB true threeRowCsv).errors
        = [(3, "Телефон не может быть пустым")]
    ∧ (gdImportStudents emptyDB [[("first_name", ""), ("last_name", "Иванов")]]).errors
        = [(1, "Отсутствует имя или фамилия")] := by
  decide

/-- Under a passing name check, the student row body runs. -/
theorem gdImportStudentRow_of_names (st : GdStudentState) (rowNum : Nat)
    (row : CsvRow) (hfn : pyGet row "first_name" "" ≠ "")
    (hln : pyGet row "last_name" "" ≠ "") :
    gdImportStudentRow st rowNum row = gdImportStudentRowBody st row := by
  unfold gdImportStudentRow
  rw [if_neg (by simp [hfn, hln])]

/-- A telegram lookup is issued only when the phone lookup was skipped
(empty phone) or missed. -/
theorem gdLookupEvents_telegram_mem (db : DB) (phone tg : String) (t : String)
    (hmem : ImportEvent.lookupTelegram t ∈ gdLookupEvents db phone tg) :
    phone = "" ∨ queryStudentByPhone db phone = none := by
  by_cases hp : phone = ""
  · exact Or.inl hp
  · by_cases hq : queryStudentByPhone db phone = none
    · exact Or.inr hq
    · exfalso
      unfold gdLookupEvents at hmem
      simp [hp, hq] at hmem

/-- When the row has a phone, the phone lookup is the first store query. -/
theorem gdLookupEvents_head (db : DB) (phone tg : String) (hp : phone ≠ "") :
    ∃ rest, gdLookupEvents db phone tg = ImportEvent.lookupPhone phone :: rest := by
  cases hq : queryStudentByPhone db phone with
  | some s => exact ⟨[], by simp [gdLookupEvents, hp, hq]⟩
  | none =>
    by_cases ht : tg = ""
    · exact ⟨[], by simp [gdLookupEvents, hp, hq, ht]⟩
    · exact ⟨[ImportEvent.lookupTelegram tg], by simp [gdLookupEvents, hp, hq, ht]⟩

/-- The store actions of the student row body are the duplicate-resolution
lookups followed by exactly one update or insert. -/
theorem gdImportStudentRowBody_events (st : GdStudentState) (row : CsvRow) :
    ∃ last, (gdImportStudentRowBody st row).2
        = gdLookupEvents st.db (pyStrip (pyGet row "phone" ""))
            (pyStrip (pyGet row "telegram_id" "")) ++ [last]
      ∧ ∀ t, last ≠ ImportEvent.lookupTelegram t := by
  unfold gdImportStudentRowBody
  cases hres : gdResolveExisting st.db (pyStrip (pyGet row "phone" ""))
      (pyStrip (pyGet row "telegram_id" "")) with
  | some s =>
    refine ⟨ImportEvent.updateStudent s.id, by simp [hres], fun t h => by cases h⟩
  | none =>
    refine ⟨ImportEvent.insertStudent st.db.nextStudentId, by simp [hres], fun t h => by cases h⟩

/-- C2 counterexample (local-file variant): with a stored student matching
the row's telegram handle but not its phone, the local Student import
issues NO telegram lookup, resolves no duplicate (`skipped = 0`), and
fails the row with a uniqueness error instead — the phone-then-telegram
duplicate resolution does not hold for the local-file import. -/
theorem local_import_no_telegram_lookup :
    queryStudentByPhone exDB "+7-900-000-00-02" = none
    ∧ (queryStudentByTelegram exDB "@anna").isSome = true
    ∧ ImportEvent.lookupTelegram "@anna" ∉ (localImportRun exDB true [telegramOnlyDupRow]).2
    ∧ (localImportRun exDB true [telegramOnlyDupRow]).1.skipped = 0
    ∧ (localImportRun exDB true [telegramOnlyDupRow]).1.imported = 0
    ∧ (localImportRun exDB true [telegramOnlyDupRow]).1.errors = [(2, integrityErrorText)]
    ∧ (localImportRun exDB true [telegramOnlyDupRow]).1.db.students = exDB.students := by
  decide

/-- C2 amended: in the REMOTE import variant, duplicate resolution looks
up by phone first (the phone lookup heads the row's store queries), looks
up by telegram_id only when the phone lookup was skipped or missed, and a
row resolving to an existing student by either key is never inserted (the
student table keeps its length; the row counts as an update).  The
local-file variant checks only the phone (see the counterexample). -/
theorem gd_duplicate_resolution (st : GdStudentState) (rowNum : Nat)
    (row : CsvRow) (hfn : pyGet row "first_name" "" ≠ "")
    (hln : pyGet row "last_name" "" ≠ "") :
    ((gdResolveExisting st.db (pyStrip (pyGet row "phone" ""))
        (pyStrip (pyGet row "telegram_id" ""))).isSome = true →
      ((gdImportStudentRow st rowNum row).1.db.students.length = st.db.students.length
       ∧ (gdImportStudentRow st rowNum row).1.imported = st.imported
       ∧ (gdImportStudentRow st rowNum row).1.updated = st.updated + 1))
    ∧ (∀ t, ImportEvent.lookupTelegram t ∈ (gdImportStudentRow st rowNum row).2 →
        (pyStrip (pyGet row "phone" "") = ""
         ∨ queryStudentByPhone st.db (pyStrip (pyGet row "phone" "")) = none))
    ∧ (pyStrip (pyGet row "phone" "") ≠ "" →
        (gdImportStudentRow st rowNum row).2.head?
          = some (ImportEvent.lookupPhone (pyStrip (pyGet row "phone" "")))) := by
  rw [gdImportStudentRow_of_names st rowNum row hfn hln]
  refine ⟨?_, ?_, ?_⟩
  · intro hsome
    cases hres : gdResolveExisting st.db (pyStrip (pyGet row "phone" ""))
        (pyStrip (pyGet row "telegram_id" "")) with
    | none => rw [hres] at hsome; simp at hsome
    | some s =>
      unfold gdImportStudentRowBody
      simp only [hres]
      exact ⟨by simp [updateStudentById], by simp, by simp⟩
  · intro t hmem
    obtain ⟨last, heq, hne⟩ := gdImportStudentRowBody_events st row
    rw [heq] at hmem
    rcases List.mem_append.mp hmem with hl | hr
    · exact gdLookupEvents_telegram_mem _ _ _ _ hl
    · rw [List.mem_singleton] at hr
      exact absurd hr.symm (hne t)
  · intro hp
    obtain ⟨last, heq, _⟩ := gdImportStudentRowBody_events st row
    rw [heq]
    obtain ⟨rest, hrest⟩ :=
      gdLookupEvents_head st.db (pyStrip (pyGet row "phone" ""))
        (pyStrip (pyGet row "telegram_id" "")) hp
    rw [hrest]
    rfl

/-- Witness for C2 amended: a remote row whose phone matches `exStudent`
resolves as a duplicate and is not inserted. -/
theorem gd_duplicate_resolution_witness :
    pyGet phoneDupRow "first_name" "" ≠ ""
    ∧ pyGet phoneDupRow "last_name" "" ≠ ""
    ∧ (((gdResolveExisting exGdState.db (pyStrip (pyGet phoneDupRow "phone" ""))
          (pyStrip (pyGet phoneDupRow "telegram_id" ""))).isSome = true →
        ((gdImportStudentRow exGdState 1 phoneDupRow).1.db.students.length
            = exGdState.db.students.length
         ∧ (gdImportStudentRow exGdState 1 phoneDupRow).1.imported = exGdState.imported
         ∧ (gdImportStudentRow exGdState 1 phoneDupRow).1.updated = exGdState.updated + 1))
       ∧ (∀ t, ImportEvent.lookupTelegram t ∈ (gdImportStudentRow exGdState 1 phoneDupRow).2 →
           (pyStrip (pyGet phoneDupRow "phone" "") = ""
            ∨ queryStudentByPhone exGdState.db (pyStrip (pyGet phoneDupRow "phone" "")) = none))
       ∧ (pyStrip (pyGet phoneDupRow "phone" "") ≠ "" →
           (gdImportStudentRow exGdState 1 phoneDupRow).2.head?
             = some (ImportEvent.lookupPhone (pyStrip (pyGet phoneDupRow "phone" "")))))
    ∧ (gdResolveExisting exGdState.db (pyStrip (pyGet phoneDupRow "phone" ""))
          (pyStrip (pyGet phoneDupRow "telegram_id" ""))).isSome = true :=
  ⟨by decide, by decide,
   gd_duplicate_resolution exGdState 1 phoneDupRow (by decide) (by decide),
   by decide⟩

/-- C5: every update-on-match row that resolves to existing student `s`
replaces exactly `s` in the student table (all other rows, and row order,
untouched) with a record keeping the id, whose mutable fields
(first_name, last_name, phone, email, current_belt, notes) take the row's
values, and whose telegram_id is kept unless the row's stripped
telegram_id is non-empty and differs from the stored one, in which case it
is overwritten; the row counts as an update, not an import. -/
theorem gd_update_on_match (st : GdStudentState) (rowNum : Nat)
    (row : CsvRow) (s : Student)
    (hfn : pyGet row "first_name" "" ≠ "") (hln : pyGet row "last_name" "" ≠ "")
    (hex : gdResolveExisting st.db (pyStrip (pyGet row "phone" ""))
        (pyStrip (pyGet row "telegram_id" "")) = some s) :
    (gdImportStudentRow st rowNum row).1.db.students
      = st.db.students.map (fun t => if t.id = s.id then gdUpdatedStudent s row else t)
    ∧ (gdUpdatedStudent s row).id = s.id
    ∧ (gdUpdatedStudent s row).first_name = pyGet row "first_name" ""
    ∧ (gdUpdatedStudent s row).last_name = pyGet row "last_name" ""
    ∧ (gdUpdatedStudent s row).phone = pyStrip (pyGet row "phone" "")
    ∧ (gdUpdatedStudent s row).email = some (pyGet row "email" "")
    ∧ (gdUpdatedStudent s row).current_belt = pyGet row "current_belt" "White"
    ∧ (gdUpdatedStudent s row).notes = some (pyGet row "notes" "")
    ∧ (pyStrip (pyGet row "telegram_id" "") = "" →
        (gdUpdatedStudent s row).telegram_id = s.telegram_id)
    ∧ (some (pyStrip (pyGet row "telegram_id" "")) = s.telegram_id →
        (gdUpdatedStudent s row).telegram_id = s.telegram_id)
    ∧ (pyStrip (pyGet row "telegram_id" "") ≠ "" →
        some (pyStrip (pyGet row "telegram_id" "")) ≠ s.telegram_id →
        (gdUpdatedStudent s row).telegram_id = some (pyStrip (pyGet row "telegram_id" "")))
    ∧ (gdImportStudentRow st rowNum row).1.updated = st.updated + 1
    ∧ (gdImportStudentRow st rowNum row).1.imported = st.imported := by
  rw [gdImportStudentRow_of_names st rowNum row hfn hln]
  refine ⟨?_, rfl, rfl, rfl, rfl, rfl, rfl, rfl, ?_, ?_, ?_, ?_, ?_⟩
  · simp [gdImportStudentRowBody, hex, updateStudentById]
  · intro ht
    simp [gdUpdatedStudent, ht]
  · intro heq
    simp [gdUpdatedStudent, heq]
  · intro ht hne
    simp [gdUpdatedStudent, ht, hne]
  · simp [gdImportStudentRowBody, hex]
  · simp [gdImportStudentRowBody, hex]

/-- Witness for C5: the phone-matching row updates `exStudent` in place,
its telegram handle `@other` (non-empty, different) overwrites `@anna`,
and the row counts as an update. -/
theorem gd_update_on_match_witness :
    gdResolveExisting exGdState.db (pyStrip (pyGet phoneDupRow "phone" ""))
        (pyStrip (pyGet phoneDupRow "telegram_id" "")) = some exStudent
    ∧ (gdImportStudentRow exGdState 1 phoneDupRow).1.db.students
        = exGdState.db.students.map
            (fun t => if t.id = exStudent.id then gdUpdatedStudent exStudent phoneDupRow else t)
    ∧ (gdUpdatedStudent exStudent phoneDupRow).id = exStudent.id
    ∧ (pyStrip (pyGet phoneDupRow "telegram_id" "") ≠ "" →
        some (pyStrip (pyGet phoneDupRow "telegram_id" "")) ≠ exStudent.telegram_id →
        (gdUpdatedStudent exStudent phoneDupRow).telegram_id
          = some (pyStrip (pyGet phoneDupRow "telegram_id" "")))
    ∧ (gdImportStudentRow exGdState 1 phoneDupRow).1.updated = exGdState.updated + 1 :=
  ⟨by decide,
   (gd_update_on_match exGdState 1 phoneDupRow exStudent (by decide) (by decide) (by decide)).1,
   (gd_update_on_match exGdState 1 phoneDupRow exStudent (by decide) (by decide) (by decide)).2.1,
   (gd_update_on_match exGdState 1 phoneDupRow exStudent (by decide) (by decide)
      (by decide)).2.2.2.2.2.2.2.2.2.2.1,
   (gd_update_on_match exGdState 1 phoneDupRow exStudent (by decide) (by decide)
      (by decide)).2.2.2.2.2.2.2.2.2.2.2.1⟩

/-- C9: a Training import row whose non-empty date field is not ISO-8601
parseable is rejected with exactly one row-numbered error; for that row no
trainer lookup, duplicate check or insert is performed (its store-action
trace is empty) and the store is unchanged. -/
theorem gd_training_bad_date (parseIso : String → Option Int)
    (st : GdTrainingState) (rowNum : Nat) (row : CsvRow)
    (hdate : pyGet row "date" "" ≠ "")
    (hparse : parseIso ((pyGet row "date" "").replace "Z" "+00:00") = none) :
    (gdImportTrainingRow parseIso st rowNum row).1.db = st.db
    ∧ (gdImportTrainingRow parseIso st rowNum row).1.imported = st.imported
    ∧ (gdImportTrainingRow parseIso st rowNum row).1.errors
        = st.errors ++ [(rowNum, "Неверный формат даты")]
    ∧ (gdImportTrainingRow parseIso st rowNum row).2 = [] := by
  unfold gdImportTrainingRow
  rw [if_neg hdate]
  simp only [hparse]
  exact ⟨trivial, trivial, trivial, trivial⟩

/-- Witness for C9: the row `badDateRow` under a parser rejecting
everything is reported as row 1 with a date-format error and leaves the
store untouched. -/
theorem gd_training_bad_date_witness :
    pyGet badDateRow "date" "" ≠ ""
    ∧ (fun _ : String => (none : Option Int))
        ((pyGet badDateRow "date" "").replace "Z" "+00:00") = none
    ∧ ((gdImportTrainingRow (fun _ => none) exGdTrainingState 1 badDateRow).1.db
          = exGdTrainingState.db
       ∧ (gdImportTrainingRow (fun _ => none) exGdTrainingState 1 badDateRow).1.imported
          = exGdTrainingState.imported
       ∧ (gdImportTrainingRow (fun _ => none) exGdTrainingState 1 badDateRow).1.errors
          = exGdTrainingState.errors ++ [(1, "Неверный формат даты")]
       ∧ (gdImportTrainingRow (fun _ => none) exGdTrainingState 1 badDateRow).2 = []) :=
  ⟨by decide, rfl,
   gd_training_bad_date (fun _ => none) exGdTrainingState 1 badDateRow (by decide) rfl⟩

end BjjCrm
